import Mathlib

/-!
Verification of the cash-flow payment gateway (Go, hexagonal architecture).

The development shallowly embeds the payment creation service
(`PaymentServiceImpl.CreatePayment`), the repository adapter
(`GormPaymentRepository`: `Create`, `ProcessPayment`, `ReferenceExists`),
the payment processor (`PaymentProcessor.ProcessPayment`) and the RabbitMQ
delivery adapter (`RabbitMQClient.ConsumePaymentMessages`, `isTerminalError`)
as pure Lean functions over an explicit store state.  Strings are lists of
characters; Go error values are modelled by inductive error types together
with the exact `fmt.Errorf` message text the code produces, since the HTTP
handler and the delivery adapter dispatch on substrings of those messages.
-/

namespace CashFlow

/-- Strings of the model: lists of characters. -/
abbrev Str := List Char

/-- Conversion from Lean string literals to model strings. -/
def str (s : String) : Str := s.toList

/-- Boolean test that `sub` is a prefix of `hay` (character-wise). -/
def prefixB : Str → Str → Bool
  | [], _ => true
  | _ :: _, [] => false
  | a :: as, b :: bs => a == b && prefixB as bs

/-- Boolean test that `sub` occurs contiguously inside `hay`; this is the
model of Go `strings.Contains hay sub`. -/
def containsB (hay sub : Str) : Bool :=
  match hay with
  | [] => match sub with | [] => true | _ :: _ => false
  | _ :: t => prefixB sub hay || containsB t sub

/-- Boolean test that `sub` is a suffix of `hay`. -/
def suffixB (sub hay : Str) : Bool := prefixB sub.reverse hay.reverse

/-- No nonempty proper prefix of `s` is a suffix of `a`: then an occurrence
of `s` in `a ++ b` can never straddle the boundary between `a` and `b`. -/
def noStraddleB (a s : Str) : Bool :=
  (List.range s.length).all fun k => k == 0 || ! suffixB (s.take k) a

/-- The whitespace predicate of Go `unicode.IsSpace`, restricted to the
Latin-1 range (the wider Unicode space classes play no role here). -/
def goIsSpace (c : Char) : Bool :=
  c == ' ' || c == '\t' || c == '\n' || c == '\r' ||
  c.toNat == 11 || c.toNat == 12 || c.toNat == 133 || c.toNat == 160

/-- Go `strings.TrimSpace`: remove leading and trailing whitespace. -/
def trimSpace (s : Str) : Str :=
  ((s.dropWhile goIsSpace).reverse.dropWhile goIsSpace).reverse

/-- Payment status (`core.PaymentStatus`: the three declared constants). -/
inductive PaymentStatus where
  | pending
  | success
  | failed
deriving DecidableEq

/-- The database text of each status constant. -/
def statusStr : PaymentStatus → Str
  | .pending => str "PENDING"
  | .success => str "SUCCESS"
  | .failed => str "FAILED"

/-- The payment entity (`core.Payment`).  Identifiers (UUIDs) are modelled
as naturals, amounts (`float64`) as rationals, timestamps as naturals. -/
structure Payment where
  id : Nat
  amount : Rat
  currency : Str
  reference : Str
  status : PaymentStatus
  createdAt : Nat
  updatedAt : Nat
deriving DecidableEq

/-- The payment table: the record store is a list of rows. -/
abbrev Store := List Payment

/-- Point lookup by identifier (`WHERE id = ?` with a unique primary key). -/
def lookup (s : Store) (i : Nat) : Option Payment :=
  s.find? fun p => p.id == i

/-- Errors produced by `GormPaymentRepository`.  The constructors that carry
a `Str` hold the message of the underlying driver error that the adapter
wraps with `fmt.Errorf`; that inner text is opaque to this repository. -/
inductive RepoErr where
  | duplicateReference (inner : Str)
  | notFound
  | alreadyProcessed (current : PaymentStatus)
  | lockFailed (inner : Str)
  | updateFailed (inner : Str)
deriving DecidableEq

/-- The exact error text built by the repository adapter
(`rabbitmq_client.go`, repository half, `fmt.Errorf` calls). -/
def repoMessage : RepoErr → Str
  | .duplicateReference inner => str "failed to create payment: " ++ inner
  | .notFound => str "payment not found"
  | .alreadyProcessed c =>
      str "payment already processed: current status is " ++ statusStr c
  | .lockFailed inner => str "failed to lock payment: " ++ inner
  | .updateFailed inner => str "failed to update payment: " ++ inner

/-- `GormPaymentRepository.ProcessPayment` (the conditional transition):
inside one transaction, `SELECT ... FOR UPDATE` the row, fail with
`payment not found` if absent, fail with `payment already processed` if the
status is not `PENDING` (no write), otherwise write the target status and
advance the updated timestamp.  `now` stands for `time.Now()`. -/
def processPayment (s : Store) (id : Nat) (newStatus : PaymentStatus)
    (now : Nat) : Except RepoErr Unit × Store :=
  match lookup s id with
  | none => (.error .notFound, s)
  | some p =>
    if p.status != PaymentStatus.pending then
      (.error (.alreadyProcessed p.status), s)
    else
      (.ok (),
       s.map fun q =>
         if q.id == id then { p with status := newStatus, updatedAt := now }
         else q)

/-- The slice of the `PaymentRepository` output port used by the creation
service: the existence pre-check and the insert.  The service is written
against this interface; instantiations below give the plain sequential
store and the store subject to a concurrent insert. -/
structure RepoOps (σ : Type) where
  referenceExists : σ → Str → Bool × σ
  create : σ → Payment → Except RepoErr Unit × σ

/-- The sequential repository over the list store.  `create` fails with the
duplicate-key error of the unique index on `reference` when the reference
is already present, and otherwise inserts the row (the `BeforeCreate` hook
has already stamped the timestamps in `mkPayment` below). -/
def listRepo (dmsg : Str) : RepoOps Store where
  referenceExists s r := (s.any fun q => q.reference == r, s)
  create s p :=
    if s.any fun q => q.reference == p.reference then
      (.error (.duplicateReference dmsg), s)
    else
      (.ok (), p :: s)

/-- The repository as seen by a creation request that loses the creation
race: a concurrent request commits the row `q` after this request ran its
`ReferenceExists` pre-check and before its `Create` reached the store. -/
def raceRepo (q : Payment) (dmsg : Str) : RepoOps Store where
  referenceExists s r := (s.any fun p => p.reference == r, s)
  create s p :=
    let s1 := q :: s
    if s1.any fun w => w.reference == p.reference then
      (.error (.duplicateReference dmsg), s1)
    else
      (.ok (), p :: s1)

/-- `input.CreatePaymentRequest`. -/
structure CreatePaymentRequest where
  amount : Rat
  currency : Str
  reference : Str
deriving DecidableEq

/-- `input.PaymentResponse`. -/
structure PaymentResponse where
  id : Nat
  amount : Rat
  currency : Str
  reference : Str
  status : PaymentStatus
  createdAt : Nat
deriving DecidableEq

instance {α β : Type} [DecidableEq α] [DecidableEq β] :
    DecidableEq (Except α β) := fun x y =>
  match x, y with
  | .ok a, .ok b =>
      if h : a = b then isTrue (by rw [h])
      else isFalse (by intro hc; cases hc; exact h rfl)
  | .error a, .error b =>
      if h : a = b then isTrue (by rw [h])
      else isFalse (by intro hc; cases hc; exact h rfl)
  | .ok _, .error _ => isFalse (by intro hc; cases hc)
  | .error _, .ok _ => isFalse (by intro hc; cases hc)

/-- The ambient effects of one `CreatePayment` call: the UUID drawn by
`uuid.New()`, the clock value the `BeforeCreate` hook stamps, and the
outcome of `PublishPaymentMessage` (carrying its error text on failure). -/
structure CreateEnv where
  newId : Nat
  now : Nat
  publishResult : Except Str Unit
deriving DecidableEq

/-- Errors returned by `PaymentServiceImpl.CreatePayment`. -/
inductive ServiceErr where
  | invalidAmount
  | invalidCurrency
  | invalidReference
  | referenceConflict
  | createFailed (e : RepoErr)
  | createdButNotQueued (inner : Str)
deriving DecidableEq

/-- The exact error text of each service error (`fmt.Errorf` calls in
`PaymentServiceImpl.CreatePayment`). -/
def serviceMessage : ServiceErr → Str
  | .invalidAmount => str "amount must be greater than zero"
  | .invalidCurrency => str "currency must be ETB or USD"
  | .invalidReference => str "reference is required"
  | .referenceConflict => str "reference already exists"
  | .createFailed e => str "failed to create payment: " ++ repoMessage e
  | .createdButNotQueued inner =>
      str "payment created but failed to publish message: " ++ inner

/-- The error dispatch of the HTTP handler `PaymentHandler.CreatePayment`:
a validation message maps to 400, a message containing `already exists`
maps to 409, anything else to 500. -/
def classifyCreateError (msg : Str) : Nat :=
  if containsB msg (str "must be greater than zero") ||
     containsB msg (str "must be ETB or USD") ||
     containsB msg (str "reference is required") then 400
  else if containsB msg (str "already exists") then 409
  else 500

/-- The payment entity the service builds for a valid request: fresh UUID,
trimmed reference, initial status `PENDING`; the repository hooks stamp
both timestamps with the current time. -/
def mkPayment (env : CreateEnv) (req : CreatePaymentRequest) : Payment :=
  { id := env.newId
    amount := req.amount
    currency := req.currency
    reference := trimSpace req.reference
    status := .pending
    createdAt := env.now
    updatedAt := env.now }

/-- `PaymentServiceImpl.CreatePayment` over an abstract repository:
validate amount, currency and trimmed reference in that order, run the
existence pre-check, insert, then publish the trigger notice, returning
a distinct error when the publish fails after the row is committed. -/
def createPaymentR (R : RepoOps σ) (env : CreateEnv)
    (req : CreatePaymentRequest) (s : σ) :
    Except ServiceErr PaymentResponse × σ :=
  if req.amount ≤ 0 then (.error .invalidAmount, s)
  else if req.currency != str "ETB" && req.currency != str "USD" then
    (.error .invalidCurrency, s)
  else if trimSpace req.reference = [] then (.error .invalidReference, s)
  else
    let es := R.referenceExists s (trimSpace req.reference)
    if es.1 then (.error .referenceConflict, es.2)
    else
      let cr := R.create es.2 (mkPayment env req)
      match cr.1 with
      | .error e => (.error (.createFailed e), cr.2)
      | .ok () =>
        match env.publishResult with
        | .error m => (.error (.createdButNotQueued m), cr.2)
        | .ok () =>
          (.ok { id := env.newId, amount := req.amount,
                 currency := req.currency,
                 reference := trimSpace req.reference,
                 status := .pending,
                 createdAt := env.now }, cr.2)

/-- `CreatePayment` over the sequential store; `dmsg` is the driver text
of a duplicate-key failure, unused on the paths taken here. -/
def createPayment (env : CreateEnv) (req : CreatePaymentRequest)
    (s : Store) : Except ServiceErr PaymentResponse × Store :=
  createPaymentR (listRepo (str "duplicate key")) env req s

/-- The return mapping of `PaymentProcessor.ProcessPayment` (lines 41 to
46): a repository failure is wrapped as `failed to process payment: %w`
and returned as an error; success returns nil (`none`). -/
def processorWrap : Except RepoErr Unit → Option Str
  | .ok () => none
  | .error e => some (str "failed to process payment: " ++ repoMessage e)

/-- `PaymentProcessor.ProcessPayment`: draw a terminal status (the coin
models `rand.Float32() < 0.5`), run the conditional transition, and wrap
its result. -/
def processorProcessPayment (s : Store) (id : Nat) (coin : Bool)
    (now : Nat) : Option Str × Store :=
  let status := if coin then PaymentStatus.success else PaymentStatus.failed
  let r := processPayment s id status now
  (processorWrap r.1, r.2)

/-- `isTerminalError` of the delivery adapter: substring matching on the
error text. -/
def isTerminalError (msg : Str) : Bool :=
  containsB msg (str "already processed") ||
  containsB msg (str "payment not found")

/-- What the adapter does with a delivery. -/
inductive AckAction where
  | ack
  | nackRequeue
deriving DecidableEq

/-- The branch of the consumer loop that runs after the handler returned:
acknowledge on success, acknowledge on a terminal error, otherwise reject
with requeue. -/
def handleResult : Option Str → AckAction
  | none => .ack
  | some e => if isTerminalError e then .ack else .nackRequeue

/-- The decoded trigger notice (`PaymentMessage`). -/
structure PaymentMsg where
  paymentId : Nat
  timestamp : Nat
deriving DecidableEq

/-- One delivery as the consumer loop sees it: `body = none` models a body
on which `json.Unmarshal` fails; `deliveryCount` counts how many times the
same content was delivered before (the loop never reads it). -/
structure Delivery where
  body : Option PaymentMsg
  deliveryCount : Nat
deriving DecidableEq

/-- The body of the consumer loop of `ConsumePaymentMessages` for one
delivery: reject-with-requeue when the body does not decode, otherwise run
the handler and dispatch on its result. -/
def consumeStep (handler : PaymentMsg → Option Str) (d : Delivery) :
    AckAction :=
  match d.body with
  | none => .nackRequeue
  | some m => handleResult (handler m)

/-- The handler the worker entry point registers with
`ConsumePaymentMessages` (worker `main`, stored in the tree as the second
document of `migrations/001_create_payments_table.sql`): it invokes
`paymentProcessor.ProcessPayment` on the identifier carried by the
notice. -/
def workerHandler (s : Store) (coin : Bool) (now : Nat)
    (m : PaymentMsg) : Option Str × Store :=
  processorProcessPayment s m.paymentId coin now

/-- One atomic step of the whole system against the shared store: either
a creation request runs (its fresh UUID assumed not to collide with an
existing row, which is what `uuid.New()` provides), or a worker processes
a trigger notice for some identifier. -/
inductive SysStep : Store → Store → Prop where
  | create (env : CreateEnv) (req : CreatePaymentRequest) {s : Store}
      (hfresh : ∀ p ∈ s, p.id ≠ env.newId) :
      SysStep s (createPayment env req s).2
  | process {s : Store} (id : Nat) (coin : Bool) (now : Nat) :
      SysStep s (processorProcessPayment s id coin now).2

/-- Stores reachable from the empty table. -/
inductive Reachable : Store → Prop where
  | init : Reachable []
  | step {s s1 : Store} : Reachable s → SysStep s s1 → Reachable s1

/-- The service errors that can occur before the record is written:
everything except the created-but-not-queued error. -/
def isPreWriteError : ServiceErr → Prop
  | .createdButNotQueued _ => False
  | _ => True

/-- The driver text wrapped inside a repository error avoids the two
phrases the delivery adapter dispatches on.  This holds of real driver
errors; it is what makes the substring dispatch of `isTerminalError`
classify correctly. -/
def innerClean : Except RepoErr Unit → Prop
  | .error (.duplicateReference m) =>
      containsB m (str "already processed") = false ∧
      containsB m (str "payment not found") = false
  | .error (.lockFailed m) =>
      containsB m (str "already processed") = false ∧
      containsB m (str "payment not found") = false
  | .error (.updateFailed m) =>
      containsB m (str "already processed") = false ∧
      containsB m (str "payment not found") = false
  | _ => True

/-- A concrete well-formed creation request (scenario A of the spec). -/
def sampleReq : CreatePaymentRequest :=
  { amount := 100, currency := str "USD", reference := str " REF-001 " }

/-- A second request whose reference differs from `sampleReq` only in the
surrounding whitespace. -/
def sampleReq2 : CreatePaymentRequest :=
  { amount := 7, currency := str "ETB", reference := str "REF-001  " }

/-- A concrete environment in which the publish succeeds. -/
def sampleEnv : CreateEnv :=
  { newId := 7, now := 3, publishResult := .ok () }

/-- A concrete environment for the second creation request. -/
def sampleEnv2 : CreateEnv :=
  { newId := 8, now := 4, publishResult := .ok () }

/-- A concrete environment in which the publish fails. -/
def sampleEnvPubFail : CreateEnv :=
  { newId := 7, now := 3, publishResult := .error (str "connection refused") }

/-- The creation request of scenario B of the spec: zero amount. -/
def reqB : CreatePaymentRequest :=
  { amount := 0, currency := str "USD", reference := str "REF-002" }

/-- A concrete pending payment row. -/
def samplePending : Payment :=
  { id := 1, amount := 5, currency := str "USD", reference := str "REF-001",
    status := .pending, createdAt := 0, updatedAt := 0 }

/-- A concrete payment row already in a terminal state. -/
def sampleDone : Payment :=
  { samplePending with status := .success }

/-- A concrete row committed by a concurrent creation request, carrying
the same trimmed reference as `sampleReq`. -/
def interloper : Payment :=
  { id := 9, amount := 3, currency := str "ETB",
    reference := str "REF-001", status := .pending,
    createdAt := 2, updatedAt := 2 }

theorem prefixB_iff : ∀ (sub hay : Str), prefixB sub hay = true ↔ sub <+: hay
  | [], hay => by simp [prefixB]
  | _ :: _, [] => by simp [prefixB]
  | a :: as, b :: bs => by
    simp [prefixB, List.cons_prefix_cons, prefixB_iff as bs, Bool.and_eq_true,
      beq_iff_eq, And.comm]

theorem containsB_iff : ∀ (hay sub : Str), containsB hay sub = true ↔ sub <:+: hay
  | [], sub => by cases sub <;> simp [containsB]
  | h :: t, sub => by
    simp [containsB, Bool.or_eq_true, prefixB_iff, containsB_iff t sub,
      List.infix_cons_iff]

theorem suffixB_iff (sub hay : Str) : suffixB sub hay = true ↔ sub <:+ hay := by
  simp [suffixB, prefixB_iff, List.reverse_prefix]

theorem noStraddle_spec {a s : Str} (h : noStraddleB a s = true) :
    ∀ k, 0 < k → k < s.length → ¬ (s.take k <:+ a) := by
  intro k hk0 hks hsuf
  have hall := List.all_eq_true.mp h k (List.mem_range.mpr hks)
  rcases Bool.or_eq_true_iff.mp hall with h0 | hns
  · have hk : k = 0 := by simpa using h0
    omega
  · rw [(suffixB_iff (s.take k) a).mpr hsuf] at hns
    cases hns

theorem isInfix_split {s a b : Str} (h : s <:+: a ++ b) :
    s <:+: a ∨ s <:+: b ∨
      ∃ k, 0 < k ∧ k < s.length ∧ s.take k <:+ a := by
  obtain ⟨u, v, huv⟩ := h
  have hta : List.take a.length ((u ++ s) ++ v) = a := by
    rw [huv]; exact List.take_left a b
  have hda : List.drop a.length ((u ++ s) ++ v) = b := by
    rw [huv]; exact List.drop_left a b
  have hlen : a.length ≤ u.length ∨ u.length + s.length ≤ a.length ∨
      (u.length < a.length ∧ a.length < u.length + s.length) := by omega
  rcases hlen with hle | hge | ⟨hlt1, hlt2⟩
  · right; left
    have hb : List.drop a.length ((u ++ s) ++ v) =
        (u.drop a.length ++ s) ++ v := by
      rw [List.drop_append_eq_append_drop, List.drop_append_eq_append_drop,
        List.length_append]
      have e1 : a.length - u.length = 0 := by omega
      have e2 : a.length - (u.length + s.length) = 0 := by omega
      rw [e1, e2, List.drop_zero, List.drop_zero]
    exact ⟨u.drop a.length, v, by rw [← hda, hb]⟩
  · left
    have ha : List.take a.length ((u ++ s) ++ v) =
        (u ++ s) ++ v.take (a.length - (u.length + s.length)) := by
      rw [List.take_append_eq_append_take,
        List.take_of_length_le (by rw [List.length_append]; omega),
        List.length_append]
    exact ⟨u, v.take (a.length - (u.length + s.length)), ha.symm.trans hta⟩
  · right; right
    refine ⟨a.length - u.length, by omega, by omega, ?_⟩
    have ha : List.take a.length ((u ++ s) ++ v) =
        u ++ s.take (a.length - u.length) := by
      rw [List.take_append_eq_append_take, List.take_append_eq_append_take,
        List.take_of_length_le (le_of_lt hlt1), List.length_append]
      have e2 : a.length - (u.length + s.length) = 0 := by omega
      rw [e2, List.take_zero, List.append_nil]
    exact ⟨u, ha.symm.trans hta⟩

theorem containsB_append_false {a b s : Str} (ha : containsB a s = false)
    (hb : containsB b s = false) (hn : noStraddleB a s = true) :
    containsB (a ++ b) s = false := by
  cases hc : containsB (a ++ b) s with
  | false => rfl
  | true =>
    exfalso
    rcases isInfix_split ((containsB_iff (a ++ b) s).mp hc) with h | h | ⟨k, hk0, hks, hsuf⟩
    · rw [(containsB_iff a s).mpr h] at ha; cases ha
    · rw [(containsB_iff b s).mpr h] at hb; cases hb
    · exact noStraddle_spec hn k hk0 hks hsuf

theorem find?_map_pred {g : Payment → Payment} {pred : Payment → Bool}
    (h : ∀ x, pred (g x) = pred x) :
    ∀ l : List Payment, (l.map g).find? pred = (l.find? pred).map g := by
  intro l
  induction l with
  | nil => rfl
  | cons x t ih =>
    rw [List.map_cons]
    cases hp : pred x with
    | true =>
      rw [List.find?_cons_of_pos _ (by rw [h x]; exact hp),
        List.find?_cons_of_pos _ hp, Option.map_some']
    | false =>
      rw [List.find?_cons_of_neg _ (by rw [h x, hp]; exact Bool.false_ne_true),
        List.find?_cons_of_neg _ (by rw [hp]; exact Bool.false_ne_true), ih]

theorem createPayment_invalidAmount (env : CreateEnv)
    (req : CreatePaymentRequest) (s : Store) (h : req.amount ≤ 0) :
    createPayment env req s = (.error .invalidAmount, s) := by
  unfold createPayment createPaymentR
  rw [if_pos h]

theorem createPayment_invalidCurrency (env : CreateEnv)
    (req : CreatePaymentRequest) (s : Store) (h1 : 0 < req.amount)
    (h2 : req.currency ≠ str "ETB") (h3 : req.currency ≠ str "USD") :
    createPayment env req s = (.error .invalidCurrency, s) := by
  unfold createPayment createPaymentR
  rw [if_neg (not_le.mpr h1), if_pos (by simp [h2, h3])]

theorem createPayment_invalidReference (env : CreateEnv)
    (req : CreatePaymentRequest) (s : Store) (h1 : 0 < req.amount)
    (h2 : req.currency = str "ETB" ∨ req.currency = str "USD")
    (h3 : trimSpace req.reference = []) :
    createPayment env req s = (.error .invalidReference, s) := by
  unfold createPayment createPaymentR
  rw [if_neg (not_le.mpr h1),
    if_neg (by rcases h2 with h | h <;> simp [h]), if_pos h3]

theorem createPayment_conflict (env : CreateEnv)
    (req : CreatePaymentRequest) (s : Store) (h1 : 0 < req.amount)
    (h2 : req.currency = str "ETB" ∨ req.currency = str "USD")
    (h3 : trimSpace req.reference ≠ [])
    (h4 : (s.any fun q => q.reference == trimSpace req.reference) = true) :
    createPayment env req s = (.error .referenceConflict, s) := by
  unfold createPayment createPaymentR
  rw [if_neg (not_le.mpr h1),
    if_neg (by rcases h2 with h | h <;> simp [h]), if_neg h3]
  simp only [listRepo, h4, if_pos]

theorem createPayment_success (env : CreateEnv)
    (req : CreatePaymentRequest) (s : Store) (h1 : 0 < req.amount)
    (h2 : req.currency = str "ETB" ∨ req.currency = str "USD")
    (h3 : trimSpace req.reference ≠ [])
    (h4 : (s.any fun q => q.reference == trimSpace req.reference) = false)
    (h5 : env.publishResult = .ok ()) :
    createPayment env req s =
      (.ok { id := env.newId, amount := req.amount,
             currency := req.currency,
             reference := trimSpace req.reference,
             status := .pending, createdAt := env.now },
       mkPayment env req :: s) := by
  unfold createPayment createPaymentR
  rw [if_neg (not_le.mpr h1),
    if_neg (by rcases h2 with h | h <;> simp [h]), if_neg h3]
  simp only [listRepo, h4, Bool.false_eq_true, if_false, mkPayment, h5]

theorem createPayment_pubfail (env : CreateEnv)
    (req : CreatePaymentRequest) (s : Store) (m : Str) (h1 : 0 < req.amount)
    (h2 : req.currency = str "ETB" ∨ req.currency = str "USD")
    (h3 : trimSpace req.reference ≠ [])
    (h4 : (s.any fun q => q.reference == trimSpace req.reference) = false)
    (h5 : env.publishResult = .error m) :
    createPayment env req s =
      (.error (.createdButNotQueued m), mkPayment env req :: s) := by
  unfold createPayment createPaymentR
  rw [if_neg (not_le.mpr h1),
    if_neg (by rcases h2 with h | h <;> simp [h]), if_neg h3]
  simp only [listRepo, h4, Bool.false_eq_true, if_false, mkPayment, h5]

theorem createPaymentRace_dup (env : CreateEnv)
    (req : CreatePaymentRequest) (s : Store) (q : Payment) (dmsg : Str)
    (h1 : 0 < req.amount)
    (h2 : req.currency = str "ETB" ∨ req.currency = str "USD")
    (h3 : trimSpace req.reference ≠ [])
    (h4 : (s.any fun w => w.reference == trimSpace req.reference) = false)
    (h5 : q.reference = trimSpace req.reference) :
    createPaymentR (raceRepo q dmsg) env req s =
      (.error (.createFailed (.duplicateReference dmsg)), q :: s) := by
  unfold createPaymentR
  rw [if_neg (not_le.mpr h1),
    if_neg (by rcases h2 with h | h <;> simp [h]), if_neg h3]
  simp only [raceRepo, h4, Bool.false_eq_true, if_false, mkPayment,
    List.any_cons, h5, beq_self_eq_true, Bool.true_or, if_true]

theorem lookup_id {s : Store} {i : Nat} {p : Payment}
    (h : lookup s i = some p) : p.id = i := by
  unfold lookup at h
  simpa using List.find?_some h

theorem processPayment_notFound (s : Store) (id : Nat)
    (st : PaymentStatus) (now : Nat) (h : lookup s id = none) :
    processPayment s id st now = (.error .notFound, s) := by
  unfold processPayment
  rw [h]

theorem processPayment_terminal (s : Store) (id : Nat)
    (st : PaymentStatus) (now : Nat) (p : Payment)
    (h : lookup s id = some p) (hp : p.status ≠ .pending) :
    processPayment s id st now = (.error (.alreadyProcessed p.status), s) := by
  unfold processPayment
  rw [h]
  dsimp only
  rw [if_pos (by simp [hp])]

theorem processPayment_pending (s : Store) (id : Nat)
    (st : PaymentStatus) (now : Nat) (p : Payment)
    (h : lookup s id = some p) (hp : p.status = .pending) :
    processPayment s id st now =
      (.ok (), s.map fun q =>
        if q.id == id then { p with status := st, updatedAt := now }
        else q) := by
  unfold processPayment
  rw [h]
  dsimp only
  rw [if_neg (by simp [hp])]

theorem lookup_map_upd (s : Store) (id i : Nat) (p : Payment)
    (st : PaymentStatus) (now : Nat) (hpid : p.id = id) :
    lookup (s.map fun q =>
        if q.id == id then { p with status := st, updatedAt := now }
        else q) i =
      (lookup s i).map fun q =>
        if q.id == id then { p with status := st, updatedAt := now }
        else q := by
  unfold lookup
  apply find?_map_pred
  intro x
  cases hx : (x.id == id) with
  | true =>
    have hx2 : x.id = id := by simpa using hx
    simp [hx, hpid, hx2]
  | false =>
    simp [hx]

theorem createPayment_snd (env : CreateEnv) (req : CreatePaymentRequest)
    (s : Store) :
    (createPayment env req s).2 = s ∨
      (createPayment env req s).2 = mkPayment env req :: s := by
  by_cases h1 : req.amount ≤ 0
  · left; rw [createPayment_invalidAmount env req s h1]
  have h1p : 0 < req.amount := lt_of_not_le h1
  by_cases h2 : req.currency = str "ETB" ∨ req.currency = str "USD"
  · by_cases h3 : trimSpace req.reference = []
    · left; rw [createPayment_invalidReference env req s h1p h2 h3]
    · cases h4 : (s.any fun q => q.reference == trimSpace req.reference) with
      | true => left; rw [createPayment_conflict env req s h1p h2 h3 h4]
      | false =>
        cases h5 : env.publishResult with
        | ok u =>
          right
          rw [createPayment_success env req s h1p h2 h3 h4 (by rw [h5])]
        | error m =>
          right
          rw [createPayment_pubfail env req s m h1p h2 h3 h4 h5]
  · push_neg at h2
    left
    rw [createPayment_invalidCurrency env req s h1p h2.1 h2.2]

theorem transient_consume_nack (B m : Str) (id ts nred : Nat)
    (e : RepoErr) (hmsg : repoMessage e = B ++ m)
    (hB1 : containsB B (str "already processed") = false)
    (hB2 : containsB B (str "payment not found") = false)
    (hnB1 : noStraddleB B (str "already processed") = true)
    (hnB2 : noStraddleB B (str "payment not found") = true)
    (hm1 : containsB m (str "already processed") = false)
    (hm2 : containsB m (str "payment not found") = false) :
    consumeStep (fun _ => processorWrap (.error e))
      ⟨some ⟨id, ts⟩, nred⟩ = .nackRequeue := by
  have h1 : containsB (str "failed to process payment: " ++ repoMessage e)
      (str "already processed") = false := by
    rw [hmsg]
    exact containsB_append_false (by decide)
      (containsB_append_false hB1 hm1 hnB1) (by decide)
  have h2 : containsB (str "failed to process payment: " ++ repoMessage e)
      (str "payment not found") = false := by
    rw [hmsg]
    exact containsB_append_false (by decide)
      (containsB_append_false hB2 hm2 hnB2) (by decide)
  have ht : isTerminalError
      (str "failed to process payment: " ++ repoMessage e) = false := by
    unfold isTerminalError
    rw [h1, h2]
    rfl
  show handleResult
    (some (str "failed to process payment: " ++ repoMessage e)) =
      .nackRequeue
  simp [handleResult, ht]

/-- C1, counterexample to the claim as stated: `PENDING` is itself a legal
target status of the conditional transition, and with it the first call
succeeds without changing the stored status, after which a second call
succeeds as well instead of failing with `AlreadyProcessed`. -/
theorem conditionalTransition_pending_target_refutes :
    (processPayment [samplePending] 1 .pending 1).1 = .ok () ∧
    (lookup (processPayment [samplePending] 1 .pending 1).2 1).map
        Payment.status = some .pending ∧
    (processPayment (processPayment [samplePending] 1 .pending 1).2 1
        .success 2).1 = .ok () := by
  decide

/-- C1 (amended): for a stored `PENDING` payment and any target status
other than `PENDING`, the first conditional transition succeeds and sets
the status to the target; a second call with any target then fails with
`AlreadyProcessed` carrying the current terminal status and returns the
store unchanged, so no write occurs. -/
theorem conditionalTransition_twice (s : Store) (id : Nat) (p : Payment)
    (t1 t2 : PaymentStatus) (n1 n2 : Nat)
    (hfind : lookup s id = some p) (hp : p.status = .pending)
    (ht : t1 ≠ .pending) :
    (processPayment s id t1 n1).1 = .ok () ∧
    lookup (processPayment s id t1 n1).2 id =
      some { p with status := t1, updatedAt := n1 } ∧
    processPayment (processPayment s id t1 n1).2 id t2 n2 =
      (.error (.alreadyProcessed t1), (processPayment s id t1 n1).2) := by
  have hpend := processPayment_pending s id t1 n1 p hfind hp
  have hl : lookup (processPayment s id t1 n1).2 id =
      some { p with status := t1, updatedAt := n1 } := by
    rw [hpend]
    rw [lookup_map_upd s id id p t1 n1 (lookup_id hfind), hfind,
      Option.map_some']
    rw [if_pos (by simp [lookup_id hfind])]
  refine ⟨by rw [hpend], hl, ?_⟩
  exact processPayment_terminal (processPayment s id t1 n1).2 id t2 n2
    { p with status := t1, updatedAt := n1 } hl ht

theorem conditionalTransition_twice_witness :
    (processPayment [samplePending] 1 .success 5).1 = .ok () ∧
    lookup (processPayment [samplePending] 1 .success 5).2 1 =
      some { samplePending with status := .success, updatedAt := 5 } ∧
    processPayment (processPayment [samplePending] 1 .success 5).2 1
        .failed 6 =
      (.error (.alreadyProcessed .success),
       (processPayment [samplePending] 1 .success 5).2) :=
  conditionalTransition_twice [samplePending] 1 samplePending .success
    .failed 5 6 (by decide) (by decide) (by decide)

/-- C2: over every reachable store, one system step never removes a
payment, changes a status only from `PENDING` to `SUCCESS` or `FAILED`
(terminal statuses are absorbing, the reverse transitions never occur),
and any payment that appears starts in `PENDING`. -/
theorem paymentStatusMonotone (s s1 : Store) (hr : Reachable s)
    (hst : SysStep s s1) (i : Nat) :
    (∀ p, lookup s i = some p → ∃ q, lookup s1 i = some q ∧
        (q.status = p.status ∨
          (p.status = .pending ∧
            (q.status = .success ∨ q.status = .failed)))) ∧
    (lookup s i = none → ∀ q, lookup s1 i = some q →
      q.status = .pending) := by
  cases hst with
  | create env req hfresh =>
    rcases createPayment_snd env req s with hsnd | hsnd
    · rw [hsnd]
      refine ⟨fun p hp => ⟨p, hp, Or.inl rfl⟩, fun hn q hq => ?_⟩
      rw [hn] at hq
      cases hq
    · rw [hsnd]
      constructor
      · intro p hp
        refine ⟨p, ?_, Or.inl rfl⟩
        have hpm : p ∈ s := by
          unfold lookup at hp
          exact List.mem_of_find?_eq_some hp
        have hne : ((mkPayment env req).id == i) = false := by
          refine beq_eq_false_iff_ne.mpr fun he => ?_
          exact hfresh p hpm ((lookup_id hp).trans he.symm)
        unfold lookup at hp ⊢
        simp only [List.find?, hne]
        exact hp
      · intro hn q hq
        unfold lookup at hn hq
        by_cases hmk : (mkPayment env req).id = i
        · have hT : ((mkPayment env req).id == i) = true := beq_iff_eq.mpr hmk
          simp only [List.find?, hT] at hq
          cases hq
          rfl
        · have hF : ((mkPayment env req).id == i) = false :=
            beq_eq_false_iff_ne.mpr hmk
          simp only [List.find?, hF, hn] at hq
          exact Option.noConfusion hq
  | process id coin now =>
    cases hl : lookup s id with
    | none =>
      have hRw : (processorProcessPayment s id coin now).2 = s := by
        unfold processorProcessPayment
        dsimp only
        rw [processPayment_notFound s id _ now hl]
      rw [hRw]
      refine ⟨fun p hp => ⟨p, hp, Or.inl rfl⟩, fun hn q hq => ?_⟩
      rw [hn] at hq
      cases hq
    | some p =>
      by_cases hps : p.status = .pending
      · have hRw : (processorProcessPayment s id coin now).2 =
            s.map fun q =>
              if q.id == id then
                { p with status := if coin then .success else .failed,
                         updatedAt := now }
              else q := by
          unfold processorProcessPayment
          dsimp only
          rw [processPayment_pending s id _ now p hl hps]
        rw [hRw]
        constructor
        · intro p1 hp1
          rw [lookup_map_upd s id i p _ now (lookup_id hl), hp1,
            Option.map_some']
          refine ⟨_, rfl, ?_⟩
          cases hpi : (p1.id == id) with
          | false => simp [hpi]
          | true =>
            have hii : i = id := by
              have h1 := lookup_id hp1
              have h2 : p1.id = id := by simpa using hpi
              omega
            subst hii
            rw [hl] at hp1
            cases hp1
            right
            refine ⟨hps, ?_⟩
            cases coin <;> simp [hpi]
        · intro hn q hq
          rw [lookup_map_upd s id i p _ now (lookup_id hl), hn] at hq
          cases hq
      · have hRw : (processorProcessPayment s id coin now).2 = s := by
          unfold processorProcessPayment
          dsimp only
          rw [processPayment_terminal s id _ now p hl hps]
        rw [hRw]
        refine ⟨fun p1 hp1 => ⟨p1, hp1, Or.inl rfl⟩, fun hn q hq => ?_⟩
        rw [hn] at hq
        cases hq

/-- C3, counterexample: on a delivery whose body fails to decode and that
has already been delivered twice before, the consumer loop still rejects
with requeue instead of acknowledging and dropping it. -/
theorem malformedRedelivery_refutes :
    consumeStep (fun _ => none) { body := none, deliveryCount := 2 } =
      .nackRequeue ∧
    AckAction.nackRequeue ≠ AckAction.ack := by
  decide

/-- C3 (amended): for every delivery whose body fails to decode, whatever
the delivery count and whatever the handler would answer, the consumer
loop rejects with requeue; malformed content is requeued forever and
never acknowledged and dropped. -/
theorem malformedAlwaysRequeued (handler : PaymentMsg → Option Str)
    (n : Nat) :
    consumeStep handler { body := none, deliveryCount := n } =
      .nackRequeue :=
  rfl

/-- C4, counterexample: when the pre-check passes on the current store and
`Create` then fails with the duplicate-reference error because a
concurrent request committed the same reference first, the service does
not return the `ReferenceConflict` outcome: it returns the generic
creation failure wrapping the duplicate error. -/
theorem duplicateCreate_notConflict_refutes :
    (createPaymentR (raceRepo interloper (str "duplicate key"))
        sampleEnv sampleReq []).1 =
      .error (.createFailed (.duplicateReference (str "duplicate key"))) ∧
    ServiceErr.createFailed (.duplicateReference (str "duplicate key")) ≠
      ServiceErr.referenceConflict := by
  decide

/-- C4 (amended): a duplicate-reference failure of `Create` during the
concurrent-creation race surfaces as the generic creation failure, not as
the conflict outcome: the returned error wraps the duplicate error, its
text differs from the pre-check conflict text, and the HTTP handler maps
it to a 500 (whenever the opaque driver text avoids the dispatch phrases
of the handler) while the pre-check conflict is mapped to a 409. -/
theorem duplicateCreate_generic_failure (env : CreateEnv)
    (req : CreatePaymentRequest) (s : Store) (q : Payment) (dmsg : Str)
    (h1 : 0 < req.amount)
    (h2 : req.currency = str "ETB" ∨ req.currency = str "USD")
    (h3 : trimSpace req.reference ≠ [])
    (h4 : (s.any fun w => w.reference == trimSpace req.reference) = false)
    (h5 : q.reference = trimSpace req.reference)
    (hc1 : containsB dmsg (str "must be greater than zero") = false)
    (hc2 : containsB dmsg (str "must be ETB or USD") = false)
    (hc3 : containsB dmsg (str "reference is required") = false)
    (hc4 : containsB dmsg (str "already exists") = false) :
    (createPaymentR (raceRepo q dmsg) env req s).1 =
      .error (.createFailed (.duplicateReference dmsg)) ∧
    serviceMessage (.createFailed (.duplicateReference dmsg)) ≠
      serviceMessage .referenceConflict ∧
    classifyCreateError
      (serviceMessage (.createFailed (.duplicateReference dmsg))) = 500 ∧
    classifyCreateError (serviceMessage .referenceConflict) = 409 := by
  have hrace := createPaymentRace_dup env req s q dmsg h1 h2 h3 h4 h5
  have hclean : ∀ t : Str,
      containsB (str "failed to create payment: ") t = false →
      noStraddleB (str "failed to create payment: ") t = true →
      containsB dmsg t = false →
      containsB
        (serviceMessage (.createFailed (.duplicateReference dmsg))) t =
        false := by
    intro t hA hnA hd
    show containsB (str "failed to create payment: " ++
      (str "failed to create payment: " ++ dmsg)) t = false
    exact containsB_append_false hA
      (containsB_append_false hA hd hnA) hnA
  have c1 := hclean (str "must be greater than zero") (by decide)
    (by decide) hc1
  have c2 := hclean (str "must be ETB or USD") (by decide) (by decide) hc2
  have c3 := hclean (str "reference is required") (by decide)
    (by decide) hc3
  have c4 := hclean (str "already exists") (by decide) (by decide) hc4
  refine ⟨by rw [hrace], ?_, ?_, by decide⟩
  · intro h
    have hh : (serviceMessage
        (.createFailed (.duplicateReference dmsg))).head? = some 'f' := rfl
    rw [h] at hh
    have hr2 : (serviceMessage ServiceErr.referenceConflict).head? =
      some 'r' := rfl
    rw [hr2] at hh
    exact absurd hh (by decide)
  · simp [classifyCreateError, c1, c2, c3, c4]

theorem duplicateCreate_generic_failure_witness :
    (createPaymentR (raceRepo interloper (str "duplicate key"))
        sampleEnv sampleReq []).1 =
      .error (.createFailed (.duplicateReference (str "duplicate key"))) ∧
    serviceMessage
        (.createFailed (.duplicateReference (str "duplicate key"))) ≠
      serviceMessage .referenceConflict ∧
    classifyCreateError (serviceMessage
      (.createFailed (.duplicateReference (str "duplicate key")))) = 500 ∧
    classifyCreateError (serviceMessage .referenceConflict) = 409 :=
  duplicateCreate_generic_failure sampleEnv sampleReq [] interloper
    (str "duplicate key") (by decide) (by decide) (by decide) (by decide)
    (by decide) (by decide) (by decide) (by decide) (by decide)

/-- C5, counterexample: when the conditional transition fails with
`AlreadyProcessed`, the processor returns that outcome to its caller as
an error (the wrapped message), not as a non-error no-op signal. -/
theorem alreadyProcessedIsError_refutes :
    (processorProcessPayment [sampleDone] 1 true 2).1 =
      some (str
        "failed to process payment: payment already processed: current status is SUCCESS") ∧
    (processorProcessPayment [sampleDone] 1 true 2).1 ≠ none := by
  decide

/-- C5 (amended): when the conditional transition fails with
`AlreadyProcessed`, the processor propagates it to its caller as a
wrapped error; the delivery adapter recognizes that text as terminal and
acknowledges, so the duplicate consumption is absorbed at the adapter,
and the store is left unchanged. -/
theorem alreadyProcessedAbsorbedByAdapter (s : Store) (id : Nat)
    (p : Payment) (coin : Bool) (now : Nat)
    (hfind : lookup s id = some p) (hp : p.status ≠ .pending) :
    (processorProcessPayment s id coin now).1 =
      some (str "failed to process payment: " ++
        repoMessage (.alreadyProcessed p.status)) ∧
    handleResult (processorProcessPayment s id coin now).1 = .ack ∧
    (processorProcessPayment s id coin now).2 = s := by
  have hterm := processPayment_terminal s id
    (if coin then .success else .failed) now p hfind hp
  have h1 : (processorProcessPayment s id coin now).1 =
      some (str "failed to process payment: " ++
        repoMessage (.alreadyProcessed p.status)) := by
    unfold processorProcessPayment
    dsimp only
    rw [hterm]
    rfl
  refine ⟨h1, ?_, ?_⟩
  · rw [h1]
    cases p.status <;> decide
  · unfold processorProcessPayment
    dsimp only
    rw [hterm]

theorem alreadyProcessedAbsorbedByAdapter_witness :
    (processorProcessPayment [sampleDone] 1 true 2).1 =
      some (str "failed to process payment: " ++
        repoMessage (.alreadyProcessed sampleDone.status)) ∧
    handleResult (processorProcessPayment [sampleDone] 1 true 2).1 =
      .ack ∧
    (processorProcessPayment [sampleDone] 1 true 2).2 = [sampleDone] :=
  alreadyProcessedAbsorbedByAdapter [sampleDone] 1 sampleDone true 2
    (by decide) (by decide)

theorem paymentStatusMonotone_witness :
    (∀ p, lookup [] 7 = some p →
      ∃ q, lookup (createPayment sampleEnv sampleReq []).2 7 = some q ∧
        (q.status = p.status ∨
          (p.status = .pending ∧
            (q.status = .success ∨ q.status = .failed)))) ∧
    (lookup [] 7 = none →
      ∀ q, lookup (createPayment sampleEnv sampleReq []).2 7 = some q →
        q.status = .pending) :=
  paymentStatusMonotone [] (createPayment sampleEnv sampleReq []).2
    Reachable.init (SysStep.create sampleEnv sampleReq (by simp)) 7

/-- C6: when the publish of the trigger notice fails after the record was
committed, `CreatePayment` returns the created-but-not-queued error — a
value whose message differs from that of every pre-write failure — and
the persisted `PENDING` record stays in the store: the store equals the
old store plus the new record, which is still retrievable; nothing is
rolled back or deleted. -/
theorem publishFailureLeavesRecord (env : CreateEnv)
    (req : CreatePaymentRequest) (s : Store) (m : Str)
    (h1 : 0 < req.amount)
    (h2 : req.currency = str "ETB" ∨ req.currency = str "USD")
    (h3 : trimSpace req.reference ≠ [])
    (h4 : (s.any fun q => q.reference == trimSpace req.reference) = false)
    (h5 : env.publishResult = .error m) :
    createPayment env req s =
      (.error (.createdButNotQueued m), mkPayment env req :: s) ∧
    (mkPayment env req).status = .pending ∧
    lookup (mkPayment env req :: s) env.newId = some (mkPayment env req) ∧
    ∀ e : ServiceErr, isPreWriteError e →
      serviceMessage e ≠ serviceMessage (.createdButNotQueued m) := by
  refine ⟨createPayment_pubfail env req s m h1 h2 h3 h4 h5, rfl, ?_, ?_⟩
  · have hT : ((mkPayment env req).id == env.newId) = true := by
      simp [mkPayment]
    unfold lookup
    simp only [List.find?, hT]
  · intro e he hEq
    have hp1 : (serviceMessage (ServiceErr.createdButNotQueued m)).head? =
      some 'p' := rfl
    cases e with
    | invalidAmount =>
      have hx : (serviceMessage ServiceErr.invalidAmount).head? =
        some 'a' := rfl
      rw [hEq, hp1] at hx
      exact absurd hx (by decide)
    | invalidCurrency =>
      have hx : (serviceMessage ServiceErr.invalidCurrency).head? =
        some 'c' := rfl
      rw [hEq, hp1] at hx
      exact absurd hx (by decide)
    | invalidReference =>
      have hx : (serviceMessage ServiceErr.invalidReference).head? =
        some 'r' := rfl
      rw [hEq, hp1] at hx
      exact absurd hx (by decide)
    | referenceConflict =>
      have hx : (serviceMessage ServiceErr.referenceConflict).head? =
        some 'r' := rfl
      rw [hEq, hp1] at hx
      exact absurd hx (by decide)
    | createFailed e2 =>
      have hx : (serviceMessage (ServiceErr.createFailed e2)).head? =
        some 'f' := rfl
      rw [hEq, hp1] at hx
      exact absurd hx (by decide)
    | createdButNotQueued m2 => exact he.elim

theorem publishFailureLeavesRecord_witness :
    createPayment sampleEnvPubFail sampleReq [] =
      (.error (.createdButNotQueued (str "connection refused")),
       mkPayment sampleEnvPubFail sampleReq :: []) ∧
    (mkPayment sampleEnvPubFail sampleReq).status = .pending ∧
    lookup (mkPayment sampleEnvPubFail sampleReq :: []) 7 =
      some (mkPayment sampleEnvPubFail sampleReq) ∧
    (∀ e : ServiceErr, isPreWriteError e →
      serviceMessage e ≠
        serviceMessage (.createdButNotQueued (str "connection refused"))) :=
  publishFailureLeavesRecord sampleEnvPubFail sampleReq []
    (str "connection refused") (by decide) (by decide) (by decide)
    (by decide) (by decide)

/-- C7: for a decodable delivery handled by the processor, the adapter
acknowledges exactly when the conditional transition succeeded, failed as
already processed, or failed as not found — provided the opaque driver
text inside a transient failure avoids the two dispatch phrases — and it
rejects with requeue on every other failure; in particular a notice for
an identifier absent from the store is acknowledged, not redelivered. -/
theorem ackIffTerminalOutcome (r : Except RepoErr Unit) (s : Store)
    (id ts nredeliv now : Nat) (coin : Bool) (hcln : innerClean r)
    (hunknown : lookup s id = none) :
    (consumeStep (fun _ => processorWrap r) ⟨some ⟨id, ts⟩, nredeliv⟩ =
        .ack ↔
      r = .ok () ∨ r = .error .notFound ∨
        ∃ c, r = .error (.alreadyProcessed c)) ∧
    consumeStep (fun m1 => (workerHandler s coin now m1).1)
      ⟨some ⟨id, ts⟩, nredeliv⟩ = .ack := by
  constructor
  · cases r with
    | ok u =>
      cases u
      exact iff_of_true rfl (Or.inl rfl)
    | error e =>
      cases e with
      | notFound =>
        exact iff_of_true rfl (Or.inr (Or.inl rfl))
      | alreadyProcessed c =>
        refine iff_of_true ?_ (Or.inr (Or.inr ⟨c, rfl⟩))
        cases c <;> rfl
      | duplicateReference m =>
        obtain ⟨hm1, hm2⟩ := hcln
        refine iff_of_false (fun h => ?_)
          (by rintro (h | h | ⟨c, h⟩) <;> simp at h)
        rw [transient_consume_nack (str "failed to create payment: ") m
          id ts nredeliv (.duplicateReference m) rfl (by decide) (by decide) (by decide)
          (by decide) hm1 hm2] at h
        simp at h
      | lockFailed m =>
        obtain ⟨hm1, hm2⟩ := hcln
        refine iff_of_false (fun h => ?_)
          (by rintro (h | h | ⟨c, h⟩) <;> simp at h)
        rw [transient_consume_nack (str "failed to lock payment: ") m
          id ts nredeliv (.lockFailed m) rfl (by decide) (by decide) (by decide)
          (by decide) hm1 hm2] at h
        simp at h
      | updateFailed m =>
        obtain ⟨hm1, hm2⟩ := hcln
        refine iff_of_false (fun h => ?_)
          (by rintro (h | h | ⟨c, h⟩) <;> simp at h)
        rw [transient_consume_nack (str "failed to update payment: ") m
          id ts nredeliv (.updateFailed m) rfl (by decide) (by decide) (by decide)
          (by decide) hm1 hm2] at h
        simp at h
  · have hnf := processPayment_notFound s id
      (if coin then .success else .failed) now hunknown
    show handleResult (workerHandler s coin now ⟨id, ts⟩).1 = .ack
    unfold workerHandler processorProcessPayment
    dsimp only
    rw [hnf]
    rfl

theorem ackIffTerminalOutcome_witness :
    (consumeStep
        (fun _ => processorWrap (.error (.lockFailed
          (str "connection reset")))) ⟨some ⟨42, 0⟩, 0⟩ = .ack ↔
      (.error (.lockFailed (str "connection reset")) :
          Except RepoErr Unit) = .ok () ∨
      (.error (.lockFailed (str "connection reset")) :
          Except RepoErr Unit) = .error .notFound ∨
        ∃ c, (.error (.lockFailed (str "connection reset")) :
          Except RepoErr Unit) = .error (.alreadyProcessed c)) ∧
    consumeStep (fun m1 => (workerHandler [] true 9 m1).1)
      ⟨some ⟨42, 0⟩, 0⟩ = .ack :=
  ackIffTerminalOutcome (.error (.lockFailed (str "connection reset")))
    [] 42 0 0 9 true ⟨by decide, by decide⟩ (by decide)

/-- C8: `CreatePayment` validates amount, currency, then trimmed
reference, in that order with the first failure winning; each failing
check returns its own error immediately and leaves the store unchanged,
so no record is created. -/
theorem validationOrder (env : CreateEnv) (req : CreatePaymentRequest)
    (s : Store) :
    (req.amount ≤ 0 →
      createPayment env req s = (.error .invalidAmount, s)) ∧
    (0 < req.amount → req.currency ≠ str "ETB" →
      req.currency ≠ str "USD" →
      createPayment env req s = (.error .invalidCurrency, s)) ∧
    (0 < req.amount →
      (req.currency = str "ETB" ∨ req.currency = str "USD") →
      trimSpace req.reference = [] →
      createPayment env req s = (.error .invalidReference, s)) :=
  ⟨createPayment_invalidAmount env req s,
   createPayment_invalidCurrency env req s,
   createPayment_invalidReference env req s⟩

theorem validationOrder_witness :
    createPayment sampleEnv reqB [] = (.error .invalidAmount, []) :=
  (validationOrder sampleEnv reqB []).1 (by decide)

/-- C9: for a valid creation request with a fresh reference and a
successful publish, `CreatePayment` extends the store by exactly one new
record, that record is initially `PENDING`, and the response carries the
identifier, amount, currency, trimmed reference and `PENDING` status of
that record. -/
theorem validCreatePendingRecord (env : CreateEnv)
    (req : CreatePaymentRequest) (s : Store) (h1 : 0 < req.amount)
    (h2 : req.currency = str "ETB" ∨ req.currency = str "USD")
    (h3 : trimSpace req.reference ≠ [])
    (h4 : (s.any fun q => q.reference == trimSpace req.reference) = false)
    (h5 : env.publishResult = .ok ()) :
    createPayment env req s =
      (.ok { id := env.newId, amount := req.amount,
             currency := req.currency,
             reference := trimSpace req.reference,
             status := .pending, createdAt := env.now },
       mkPayment env req :: s) ∧
    (mkPayment env req).status = .pending ∧
    (mkPayment env req).id = env.newId ∧
    (mkPayment env req).amount = req.amount ∧
    (mkPayment env req).currency = req.currency ∧
    (mkPayment env req).reference = trimSpace req.reference :=
  ⟨createPayment_success env req s h1 h2 h3 h4 h5, rfl, rfl, rfl, rfl, rfl⟩

theorem validCreatePendingRecord_witness :
    createPayment sampleEnv sampleReq [] =
      (.ok { id := 7, amount := 100, currency := str "USD",
             reference := trimSpace (str " REF-001 "),
             status := .pending, createdAt := 3 },
       mkPayment sampleEnv sampleReq :: []) ∧
    (mkPayment sampleEnv sampleReq).status = .pending ∧
    (mkPayment sampleEnv sampleReq).id = 7 ∧
    (mkPayment sampleEnv sampleReq).amount = 100 ∧
    (mkPayment sampleEnv sampleReq).currency = str "USD" ∧
    (mkPayment sampleEnv sampleReq).reference =
      trimSpace (str " REF-001 ") :=
  validCreatePendingRecord sampleEnv sampleReq [] (by decide) (by decide)
    (by decide) (by decide) (by decide)

/-- C10: on a successful creation the persisted and echoed reference is
the submitted reference with surrounding whitespace removed, and a second
request whose reference differs only in surrounding whitespace targets
the same stored reference: it fails with the conflict error and creates
nothing. -/
theorem referenceTrimmedAndConflicts (env1 env2 : CreateEnv)
    (req1 req2 : CreatePaymentRequest) (s : Store) (h1 : 0 < req1.amount)
    (h2 : req1.currency = str "ETB" ∨ req1.currency = str "USD")
    (h3 : trimSpace req1.reference ≠ [])
    (h4 : (s.any fun q => q.reference == trimSpace req1.reference) = false)
    (h5 : env1.publishResult = .ok ())
    (g1 : 0 < req2.amount)
    (g2 : req2.currency = str "ETB" ∨ req2.currency = str "USD")
    (heq : trimSpace req2.reference = trimSpace req1.reference) :
    createPayment env1 req1 s =
      (.ok { id := env1.newId, amount := req1.amount,
             currency := req1.currency,
             reference := trimSpace req1.reference,
             status := .pending, createdAt := env1.now },
       mkPayment env1 req1 :: s) ∧
    (mkPayment env1 req1).reference = trimSpace req1.reference ∧
    createPayment env2 req2 (mkPayment env1 req1 :: s) =
      (.error .referenceConflict, mkPayment env1 req1 :: s) := by
  refine ⟨createPayment_success env1 req1 s h1 h2 h3 h4 h5, rfl, ?_⟩
  refine createPayment_conflict env2 req2 _ g1 g2 ?_ ?_
  · rw [heq]; exact h3
  · simp [mkPayment, heq]

theorem referenceTrimmedAndConflicts_witness :
    createPayment sampleEnv sampleReq [] =
      (.ok { id := 7, amount := 100, currency := str "USD",
             reference := trimSpace (str " REF-001 "),
             status := .pending, createdAt := 3 },
       mkPayment sampleEnv sampleReq :: []) ∧
    (mkPayment sampleEnv sampleReq).reference =
      trimSpace (str " REF-001 ") ∧
    createPayment sampleEnv2 sampleReq2
        (mkPayment sampleEnv sampleReq :: []) =
      (.error .referenceConflict, mkPayment sampleEnv sampleReq :: []) :=
  referenceTrimmedAndConflicts sampleEnv sampleEnv2 sampleReq sampleReq2
    [] (by decide) (by decide) (by decide) (by decide) (by decide)
    (by decide) (by decide) (by decide)

end CashFlow
